import Mathlib

/-!
Verification of the KL-divergence loss operator (`kldiv_loss`) of the
Paddle repository, file `paddle/fluid/operators/kldiv_loss_op.cc`.

Shallow embedding: shapes are lists of `Int` (a non-positive entry encodes
a dynamic/unknown dimension), an `InferShapeContext` records which input
and output slots are present together with the input shapes, the attribute
map and the `IsRuntime` flag, and each C++ method becomes a Lean function
returning `Except` on the error paths.  The `InferError` constructors
realize the spec's error taxonomy: `missingSlot`, `rankMismatch` and
`dimMismatch` are the spec's ShapeMismatch cases, `invalidReduction` is
the spec's SchemaViolation for the enumerated reduction attribute.
-/

/-- Typed attribute values, as in the framework's `AttributeMap`
(string / int / float-free subset that this operator uses, plus bool). -/
inductive AttrVal where
  | str (v : String)
  | int (v : Int)
  | bool (v : Bool)
deriving DecidableEq, Repr

/-- An attribute map: association list from attribute name to value. -/
abbrev AttrMap := List (String × AttrVal)

/-- `Attrs().Get<std::string>(name)`, with the schema-supplied default used
when the attribute is absent (the `kldiv_loss` schema declares
`reduction` with `.SetDefault("mean")`). -/
def AttrMap.getStr (m : AttrMap) (name dflt : String) : String :=
  match m.lookup name with
  | some (AttrVal.str v) => v
  | _ => dflt

/-- The `InferShapeContext`: present input slots with their shapes,
present output slot names, the node's attribute map, and whether shape
inference runs at execution time (`IsRuntime`) or graph-construction
time. -/
structure InferShapeContext where
  inputs : List (String × List Int)
  outputs : List String
  attrs : AttrMap
  isRuntime : Bool
deriving DecidableEq, Repr

/-- `ctx->HasInput(name)`. -/
def InferShapeContext.hasInput (c : InferShapeContext) (name : String) : Bool :=
  (c.inputs.lookup name).isSome

/-- `ctx->HasOutput(name)`. -/
def InferShapeContext.hasOutput (c : InferShapeContext) (name : String) : Bool :=
  c.outputs.contains name

/-- `ctx->GetInputDim(name)` (only called after the presence check). -/
def InferShapeContext.getInputDim (c : InferShapeContext) (name : String) : List Int :=
  (c.inputs.lookup name).getD []

/-- Errors raised by `InferShape`.  `missingSlot`, `rankMismatch` and
`dimMismatch` correspond to the spec's ShapeMismatch; `invalidReduction`
to the spec's SchemaViolation. -/
inductive InferError where
  | missingSlot (which : String)
  | rankMismatch (rankX rankTarget : Nat)
  | dimMismatch (i : Nat) (dimX dimTarget : Int)
  | invalidReduction (r : String)
deriving DecidableEq, Repr

/-- The per-dimension loop of `KLDivLossOp::InferShape` (lines 37-46):
starting at index `i`, each pair of dimensions is compared only when
`ctx->IsRuntime()` holds or both sizes are strictly positive (statically
known); a compared pair that differs raises the shape-mismatch error that
reports the index and both sizes. -/
def checkDims (isRuntime : Bool) : Nat → List Int → List Int → Except InferError Unit
  | _, [], _ => Except.ok ()
  | _, _ :: _, [] => Except.ok ()
  | i, x :: xs, t :: ts =>
    if isRuntime = true ∨ (0 < x ∧ 0 < t) then
      if x = t then checkDims isRuntime (i + 1) xs ts
      else Except.error (InferError.dimMismatch i x t)
    else checkDims isRuntime (i + 1) xs ts

/-- `KLDivLossOp::InferShape` (lines 25-62): presence checks for X,
Target, Loss; rank equality of X and Target; per-dimension agreement via
`checkDims`; validation of the `reduction` attribute against the
enumerated set; finally `SetOutputDim("Loss", ...)`, returning the list
of output-shape assignments performed. -/
def kldivLossInferShape (ctx : InferShapeContext) :
    Except InferError (List (String × List Int)) :=
  if !ctx.hasInput "X" then Except.error (InferError.missingSlot "X")
  else if !ctx.hasInput "Target" then Except.error (InferError.missingSlot "Target")
  else if !ctx.hasOutput "Loss" then Except.error (InferError.missingSlot "Loss")
  else
    let dimX := ctx.getInputDim "X"
    let dimTarget := ctx.getInputDim "Target"
    if dimX.length ≠ dimTarget.length then
      Except.error (InferError.rankMismatch dimX.length dimTarget.length)
    else
      match checkDims ctx.isRuntime 0 dimX dimTarget with
      | Except.error e => Except.error e
      | Except.ok () =>
        let reduction := ctx.attrs.getStr "reduction" "mean"
        if reduction = "mean" ∨ reduction = "sum" ∨
            reduction = "batchmean" ∨ reduction = "none" then
          if reduction = "none" then Except.ok [("Loss", dimX)]
          else Except.ok [("Loss", [(1 : Int)])]
        else Except.error (InferError.invalidReduction reduction)

/-- `framework::GradVarName`: the gradient variable name of `name`. -/
def GradVarName (name : String) : String := name ++ "@GRAD"

/-- The forward-node view a `SingleGradOpMaker` reads from: the forward
node's input and output slot bindings (slot name to variable names) and
its attribute map. -/
structure ForwardOpContext where
  inputs : List (String × List String)
  outputs : List (String × List String)
  attrs : AttrMap
deriving DecidableEq, Repr

/-- `this->Input(slot)`: the forward node's variables bound to an input slot. -/
def ForwardOpContext.input (f : ForwardOpContext) (slot : String) : List String :=
  (f.inputs.lookup slot).getD []

/-- `this->OutputGrad(slot)`: gradient variable names of a forward output slot. -/
def ForwardOpContext.outputGrad (f : ForwardOpContext) (slot : String) : List String :=
  ((f.outputs.lookup slot).getD []).map GradVarName

/-- `this->InputGrad(slot)`: gradient variable names of a forward input slot. -/
def ForwardOpContext.inputGrad (f : ForwardOpContext) (slot : String) : List String :=
  ((f.inputs.lookup slot).getD []).map GradVarName

/-- The backward operator node description produced by a grad-op maker. -/
structure GradOpDesc where
  type : String
  inputs : List (String × List String)
  outputs : List (String × List String)
  attrs : AttrMap
deriving DecidableEq, Repr

/-- `KLDivLossOpGradMaker::Apply` (lines 157-166): the single backward
node of type `kldiv_loss_grad` with inputs X, Target and Loss@GRAD, the
forward attribute map copied verbatim via `SetAttrMap`, and the single
output X@GRAD. -/
def kldivLossGradOpMaker (f : ForwardOpContext) : GradOpDesc :=
  { type := "kldiv_loss_grad"
    inputs := [("X", f.input "X"), ("Target", f.input "Target"),
               (GradVarName "Loss", f.outputGrad "Loss")]
    attrs := f.attrs
    outputs := [(GradVarName "X", f.inputGrad "X")] }

/-- `DECLARE_NO_NEED_BUFFER_VARS_INFERER(KLDivLossGradNoNeedBufferVarInference,
"X")` (line 169), attached to `kldiv_loss_grad` at registration: the set
of variables whose buffer the backward node does not need. -/
def kldivLossGradNoNeedBufferVars : List String := ["X"]

/-- `KLDivLossOpGrad::InferShape` (lines 131-140): presence checks for X,
Target and Loss@GRAD; then, only when the X@GRAD output slot is present,
its shape is set to X's shape.  Returns the output-shape assignments
performed. -/
def kldivLossGradInferShape (ctx : InferShapeContext) :
    Except InferError (List (String × List Int)) :=
  if !ctx.hasInput "X" then Except.error (InferError.missingSlot "X")
  else if !ctx.hasInput "Target" then Except.error (InferError.missingSlot "Target")
  else if !ctx.hasInput (GradVarName "Loss") then
    Except.error (InferError.missingSlot "Loss@GRAD")
  else
    let dimX := ctx.getInputDim "X"
    if ctx.hasOutput (GradVarName "X") then Except.ok [(GradVarName "X", dimX)]
    else Except.ok []

/-- Device kinds relevant to the registrations in this file. -/
inductive DeviceKind where
  | CPU
  | CUDA
deriving DecidableEq, Repr

/-- Tensor data types relevant to the registrations in this file. -/
inductive DataType where
  | float32
  | float64
  | float16
deriving DecidableEq, Repr

/-- `framework::OpKernelType`: the (data type, place) pair an operator
asks the dispatcher for. -/
structure OpKernelType where
  dataType : DataType
  place : DeviceKind
deriving DecidableEq, Repr

/-- The execution-context view the kernel-type methods read: the data
type bound to each variable name, and the context's place. -/
structure ExecutionContext where
  varDataTypes : List (String × DataType)
  place : DeviceKind
deriving DecidableEq, Repr

/-- `OperatorWithKernel::IndicateVarDataType(ctx, name)`. -/
def indicateVarDataType (ctx : ExecutionContext) (name : String) : Option DataType :=
  ctx.varDataTypes.lookup name

/-- `KLDivLossOp::GetExpectedKernelType` (lines 65-69): the data type of
input X paired with the context's place. -/
def kldivLossGetExpectedKernelType (ctx : ExecutionContext) : Option OpKernelType :=
  (indicateVarDataType ctx "X").map (fun dt => ⟨dt, ctx.place⟩)

/-- `KLDivLossOpGrad::GetExpectedKernelType` (lines 143-148): the data
type of input Loss@GRAD paired with the context's place. -/
def kldivLossGradGetExpectedKernelType (ctx : ExecutionContext) : Option OpKernelType :=
  (indicateVarDataType ctx (GradVarName "Loss")).map (fun dt => ⟨dt, ctx.place⟩)

/-- A kernel-registry key: (operator type, device kind, data type). -/
structure KernelKey where
  opType : String
  place : DeviceKind
  dataType : DataType
deriving DecidableEq, Repr

/-- The kernels registered by this file (`REGISTER_OP_CPU_KERNEL`, lines
180-186): float and double CPU kernels for `kldiv_loss` and
`kldiv_loss_grad`. -/
def registeredKernels : List KernelKey :=
  [⟨"kldiv_loss", DeviceKind.CPU, DataType.float32⟩,
   ⟨"kldiv_loss", DeviceKind.CPU, DataType.float64⟩,
   ⟨"kldiv_loss_grad", DeviceKind.CPU, DataType.float32⟩,
   ⟨"kldiv_loss_grad", DeviceKind.CPU, DataType.float64⟩]

/-- Dispatch failure. -/
inductive DispatchError where
  | noKernelFound
deriving DecidableEq, Repr

/-- Modelled from the spec: the framework's kernel dispatch (the
`dispatch(node, executionContext)` contract of the Kernel Dispatch Table;
the C++ lookup lives in framework code outside this file).  The key is
looked up in the registry exactly; if absent the call fails with
NoKernelFound, with no fallback device or type conversion. -/
def dispatch (k : KernelKey) : Except DispatchError KernelKey :=
  if registeredKernels.contains k then Except.ok k
  else Except.error DispatchError.noKernelFound

/-- Modelled from the spec: dispatch for a `kldiv_loss` node forms its
key from the operator type, the execution context's place and the data
type of the primary input X (via `GetExpectedKernelType`), then looks it
up; `none` when the context does not bind X at all. -/
def dispatchKLDivLoss (ctx : ExecutionContext) : Option (Except DispatchError KernelKey) :=
  (kldivLossGetExpectedKernelType ctx).map
    (fun k => dispatch ⟨"kldiv_loss", k.place, k.dataType⟩)

deriving instance DecidableEq for Except

/-- Concrete scenario context: X [4,10], Target [4,10], reduction "none",
graph-construction time. -/
def exampleCtxNone : InferShapeContext :=
  ⟨[("X", [4, 10]), ("Target", [4, 10])], ["Loss"],
   [("reduction", AttrVal.str "none")], false⟩

/-- Concrete scenario context: X [4,10], Target [4,10], reduction "mean",
graph-construction time. -/
def exampleCtxMean : InferShapeContext :=
  ⟨[("X", [4, 10]), ("Target", [4, 10])], ["Loss"],
   [("reduction", AttrVal.str "mean")], false⟩

/-- Concrete scenario context: X [4,10], Target [4,5], both statically
known, graph-construction time. -/
def exampleCtxMismatch : InferShapeContext :=
  ⟨[("X", [4, 10]), ("Target", [4, 5])], ["Loss"],
   [("reduction", AttrVal.str "mean")], false⟩

/-- C1: for every `kldiv_loss` node whose inputs pass the shape checks
(shape inference succeeds), the Loss output shape is exactly X's shape
when the reduction attribute is "none" and the one-element shape [1]
otherwise; in particular X [4,10] with reduction "none" yields Loss
[4,10] and with reduction "mean" yields Loss [1]. -/
theorem kldiv_infer_output_shape_policy (ctx : InferShapeContext)
    (outs : List (String × List Int))
    (h : kldivLossInferShape ctx = Except.ok outs) :
    outs = [("Loss",
      if ctx.attrs.getStr "reduction" "mean" = "none"
      then ctx.getInputDim "X" else [(1 : Int)])] ∧
    kldivLossInferShape exampleCtxNone = Except.ok [("Loss", [4, 10])] ∧
    kldivLossInferShape exampleCtxMean = Except.ok [("Loss", [1])] := by
  refine ⟨?_, by decide, by decide⟩
  simp only [kldivLossInferShape] at h
  repeat any_goals split at h
  all_goals simp_all

/-- Witness for C1: the concrete "none" scenario discharges the success
hypothesis of `kldiv_infer_output_shape_policy`. -/
theorem kldiv_infer_output_shape_policy_witness :
    kldivLossInferShape exampleCtxNone = Except.ok [("Loss", [4, 10])] ∧
    ([("Loss", ([4, 10] : List Int))] = [("Loss",
      if exampleCtxNone.attrs.getStr "reduction" "mean" = "none"
      then exampleCtxNone.getInputDim "X" else [(1 : Int)])] ∧
    kldivLossInferShape exampleCtxNone = Except.ok [("Loss", [4, 10])] ∧
    kldivLossInferShape exampleCtxMean = Except.ok [("Loss", [1])]) :=
  ⟨by decide, kldiv_infer_output_shape_policy exampleCtxNone _ (by decide)⟩

/-- Helper: at graph-construction time (`IsRuntime` false) the dimension
loop succeeds iff every aligned pair whose two sizes are both statically
known (strictly positive) agrees; pairs with a dynamic size are skipped. -/
theorem checkDims_false_ok (k : Nat) (dx dt : List Int) :
    checkDims false k dx dt = Except.ok () ↔
      ∀ p ∈ dx.zip dt, 0 < p.1 → 0 < p.2 → p.1 = p.2 := by
  induction dx generalizing dt k with
  | nil => simp [checkDims]
  | cons x xs ih =>
    cases dt with
    | nil => simp [checkDims]
    | cons t ts =>
      rw [checkDims]
      simp only [List.zip_cons_cons, List.mem_cons]
      by_cases hpos : 0 < x ∧ 0 < t
      · rw [if_pos (Or.inr hpos)]
        by_cases hxt : x = t
        · rw [if_pos hxt, ih]
          constructor
          · intro h p hp
            rcases hp with rfl | hp
            · intro _ _; exact hxt
            · exact h p hp
          · intro h p hp
            exact h p (Or.inr hp)
        · rw [if_neg hxt]
          constructor
          · intro habs; exact absurd habs (by simp)
          · intro h
            exact absurd (h (x, t) (Or.inl rfl) hpos.1 hpos.2) hxt
      · rw [if_neg (by simp [hpos]), ih]
        constructor
        · intro h p hp
          rcases hp with rfl | hp
          · intro h1 h2; exact absurd ⟨h1, h2⟩ hpos
          · exact h p hp
        · intro h p hp
          exact h p (Or.inr hp)

/-- Helper: at execution time (`IsRuntime` true) the dimension loop
succeeds iff every aligned pair of sizes agrees, dynamic or not. -/
theorem checkDims_true_ok (k : Nat) (dx dt : List Int) :
    checkDims true k dx dt = Except.ok () ↔
      ∀ p ∈ dx.zip dt, p.1 = p.2 := by
  induction dx generalizing dt k with
  | nil => simp [checkDims]
  | cons x xs ih =>
    cases dt with
    | nil => simp [checkDims]
    | cons t ts =>
      rw [checkDims, if_pos (Or.inl rfl)]
      simp only [List.zip_cons_cons, List.mem_cons]
      by_cases hxt : x = t
      · rw [if_pos hxt, ih]
        constructor
        · intro h p hp
          rcases hp with rfl | hp
          · exact hxt
          · exact h p hp
        · intro h p hp
          exact h p (Or.inr hp)
      · rw [if_neg hxt]
        constructor
        · intro habs; exact absurd habs (by simp)
        · intro h
          exact absurd (h (x, t) (Or.inl rfl)) hxt

/-- C3: dimension sizes of X and Target are compared at
graph-construction time only when both are statically known (strictly
positive), and the check fails iff two such statically known sizes
differ; at execution time every aligned pair is compared; concretely, X
[4,10] against Target [4,5] at construction time fails reporting index 1
with sizes 10 and 5. -/
theorem kldiv_dynamic_dim_policy :
    (∀ (dx dt : List Int),
        checkDims false 0 dx dt = Except.ok () ↔
          ∀ p ∈ dx.zip dt, 0 < p.1 → 0 < p.2 → p.1 = p.2) ∧
    (∀ (dx dt : List Int),
        checkDims true 0 dx dt = Except.ok () ↔ ∀ p ∈ dx.zip dt, p.1 = p.2) ∧
    kldivLossInferShape exampleCtxMismatch =
      Except.error (InferError.dimMismatch 1 10 5) := by
  refine ⟨fun dx dt => checkDims_false_ok 0 dx dt,
          fun dx dt => checkDims_true_ok 0 dx dt, by decide⟩

/-- Witness for C3: a dynamic size (-1 against 7) is not rejected at
construction time while the statically known pair (4, 4) agrees. -/
theorem kldiv_dynamic_dim_policy_witness :
    checkDims false 0 [4, -1] [4, 7] = Except.ok () ↔
      ∀ p ∈ ([4, -1] : List Int).zip [4, 7], 0 < p.1 → 0 < p.2 → p.1 = p.2 :=
  kldiv_dynamic_dim_policy.1 [4, -1] [4, 7]

/-- C4: rank equality of X and Target is checked whenever the presence
checks pass — for every context, at construction time as well as at
runtime and regardless of dynamic dimensions — and shape inference fails
with the rank-mismatch error whenever the two ranks differ. -/
theorem kldiv_rank_check_unconditional (ctx : InferShapeContext)
    (hX : ctx.hasInput "X" = true)
    (hT : ctx.hasInput "Target" = true)
    (hL : ctx.hasOutput "Loss" = true)
    (hr : (ctx.getInputDim "X").length ≠ (ctx.getInputDim "Target").length) :
    kldivLossInferShape ctx =
      Except.error (InferError.rankMismatch (ctx.getInputDim "X").length
        (ctx.getInputDim "Target").length) := by
  simp [kldivLossInferShape, hX, hT, hL, hr]

/-- Witness for C4: a construction-time context whose inputs hold dynamic
dimensions but differing ranks (2 vs 1) is still rejected. -/
theorem kldiv_rank_check_unconditional_witness :
    kldivLossInferShape
        ⟨[("X", [-1, 10]), ("Target", [-1])], ["Loss"],
         [("reduction", AttrVal.str "mean")], false⟩ =
      Except.error (InferError.rankMismatch 2 1) :=
  kldiv_rank_check_unconditional _ (by decide) (by decide) (by decide) (by decide)

/-- C5: whenever the presence, rank and dimension checks pass and the
reduction attribute is outside {"none","mean","sum","batchmean"}, shape
inference fails with the invalid-reduction error (the spec's
SchemaViolation); the statement holds for construction-time contexts
(`isRuntime = false`) in particular, so the invalid value is rejected at
graph construction, not first at kernel execution. -/
theorem kldiv_invalid_reduction_rejected (ctx : InferShapeContext)
    (hX : ctx.hasInput "X" = true)
    (hT : ctx.hasInput "Target" = true)
    (hL : ctx.hasOutput "Loss" = true)
    (hr : (ctx.getInputDim "X").length = (ctx.getInputDim "Target").length)
    (hd : checkDims ctx.isRuntime 0 (ctx.getInputDim "X")
            (ctx.getInputDim "Target") = Except.ok ())
    (hred : ¬ (ctx.attrs.getStr "reduction" "mean" = "mean" ∨
               ctx.attrs.getStr "reduction" "mean" = "sum" ∨
               ctx.attrs.getStr "reduction" "mean" = "batchmean" ∨
               ctx.attrs.getStr "reduction" "mean" = "none")) :
    kldivLossInferShape ctx =
      Except.error (InferError.invalidReduction
        (ctx.attrs.getStr "reduction" "mean")) := by
  simp [kldivLossInferShape, hX, hT, hL, hr, hd, hred]

/-- Witness for C5: reduction "invalid_value" is rejected at a
construction-time context. -/
theorem kldiv_invalid_reduction_rejected_witness :
    kldivLossInferShape
        ⟨[("X", [4, 10]), ("Target", [4, 10])], ["Loss"],
         [("reduction", AttrVal.str "invalid_value")], false⟩ =
      Except.error (InferError.invalidReduction "invalid_value") :=
  kldiv_invalid_reduction_rejected _ (by decide) (by decide) (by decide)
    (by decide) (by decide) (by decide)

/-- Helper: the dimension loop raises only dimension-mismatch errors. -/
theorem checkDims_error_is_dimMismatch (b : Bool) (k : Nat) (dx dt : List Int)
    (e : InferError) (h : checkDims b k dx dt = Except.error e) :
    ∃ i x t, e = InferError.dimMismatch i x t := by
  induction dx generalizing dt k with
  | nil => simp [checkDims] at h
  | cons x xs ih =>
    cases dt with
    | nil => simp [checkDims] at h
    | cons t ts =>
      rw [checkDims] at h
      split at h
      · split at h
        · exact ih _ _ h
        · refine ⟨k, x, t, ?_⟩
          rw [Except.error.injEq] at h
          exact h.symm
      · exact ih _ _ h

/-- C8: shape inference of `kldiv_loss` reports the missing slot when X,
Target or Loss is absent from the context — X checked first, then Target,
then Loss, each before any shape is read — and when all three are present
the result is never a missing-slot error. -/
theorem kldiv_presence_checks (ctx : InferShapeContext) :
    (ctx.hasInput "X" = false →
      kldivLossInferShape ctx = Except.error (InferError.missingSlot "X")) ∧
    (ctx.hasInput "X" = true → ctx.hasInput "Target" = false →
      kldivLossInferShape ctx = Except.error (InferError.missingSlot "Target")) ∧
    (ctx.hasInput "X" = true → ctx.hasInput "Target" = true →
      ctx.hasOutput "Loss" = false →
      kldivLossInferShape ctx = Except.error (InferError.missingSlot "Loss")) ∧
    (ctx.hasInput "X" = true → ctx.hasInput "Target" = true →
      ctx.hasOutput "Loss" = true →
      ∀ s, kldivLossInferShape ctx ≠ Except.error (InferError.missingSlot s)) := by
  refine ⟨?_, ?_, ?_, ?_⟩
  · intro hX
    simp [kldivLossInferShape, hX]
  · intro hX hT
    simp [kldivLossInferShape, hX, hT]
  · intro hX hT hL
    simp [kldivLossInferShape, hX, hT, hL]
  · intro hX hT hL s hcontra
    simp only [kldivLossInferShape, hX, hT, hL, Bool.not_true, Bool.false_eq_true,
      if_false] at hcontra
    split at hcontra
    · simp at hcontra
    · split at hcontra
      next e heq =>
        obtain ⟨i, x, t, ht⟩ := checkDims_error_is_dimMismatch _ _ _ _ _ heq
        rw [Except.error.injEq] at hcontra
        rw [hcontra] at ht
        simp at ht
      next heq =>
        split at hcontra
        · split at hcontra <;> simp at hcontra
        · simp at hcontra

/-- Witness for C8: a context lacking the X input is rejected with the
missing-X error. -/
theorem kldiv_presence_checks_witness :
    kldivLossInferShape
        ⟨[("Target", [4, 10])], ["Loss"],
         [("reduction", AttrVal.str "mean")], false⟩ =
      Except.error (InferError.missingSlot "X") :=
  (kldiv_presence_checks _).1 (by decide)

/-- The concrete forward node of the gradient wiring scenario: inputs X
and Target bound to variables "X" and "Target", output Loss bound to
"Loss", reduction "mean". -/
def exampleForwardNode : ForwardOpContext :=
  ⟨[("X", ["X"]), ("Target", ["Target"])], [("Loss", ["Loss"])],
   [("reduction", AttrVal.str "mean")]⟩

/-- Counterexample for C2: the claim says Target is the variable marked
no-need-buffer for the backward node, but the registration
`DECLARE_NO_NEED_BUFFER_VARS_INFERER(..., "X")` marks X, so Target is not
in the no-need-buffer set even for the concrete scenario node. -/
theorem kldiv_grad_noneedbuffer_counterexample :
    (kldivLossGradOpMaker exampleForwardNode).type = "kldiv_loss_grad" ∧
    kldivLossGradNoNeedBufferVars = ["X"] ∧
    ¬ "Target" ∈ kldivLossGradNoNeedBufferVars := by
  refine ⟨rfl, rfl, by decide⟩

/-- C2 (amended): building the gradient of a forward `kldiv_loss` node
with output gradient Loss@GRAD yields exactly one backward node of type
"kldiv_loss_grad" whose inputs are the forward X, the forward Target and
Loss@GRAD, and whose only output is X@GRAD (Target gets no gradient
output); X — not Target — is the variable marked no-need-buffer for the
backward node; concretely, the scenario node with variables X, Target,
Loss wires inputs {X, Target, Loss@GRAD} and output {X@GRAD}. -/
theorem kldiv_grad_wiring (f : ForwardOpContext) :
    (kldivLossGradOpMaker f).type = "kldiv_loss_grad" ∧
    (kldivLossGradOpMaker f).inputs =
      [("X", f.input "X"), ("Target", f.input "Target"),
       ("Loss@GRAD", f.outputGrad "Loss")] ∧
    (kldivLossGradOpMaker f).outputs = [("X@GRAD", f.inputGrad "X")] ∧
    kldivLossGradNoNeedBufferVars = ["X"] ∧
    kldivLossGradOpMaker exampleForwardNode =
      ⟨"kldiv_loss_grad",
       [("X", ["X"]), ("Target", ["Target"]), ("Loss@GRAD", ["Loss@GRAD"])],
       [("X@GRAD", ["X@GRAD"])],
       [("reduction", AttrVal.str "mean")]⟩ := by
  exact ⟨rfl, rfl, rfl, rfl, by decide⟩

/-- C7: the attribute map of the backward node produced by the gradient
maker equals the forward node's attribute map, for every forward node and
every attribute map. -/
theorem kldiv_grad_attrs_copied_verbatim (f : ForwardOpContext) :
    (kldivLossGradOpMaker f).attrs = f.attrs := rfl

/-- C9: for every `kldiv_loss_grad` context passing the presence checks
on X, Target and Loss@GRAD, the X@GRAD output is optional: when the slot
is present its shape is set to X's shape, and when absent shape inference
still succeeds writing no output shape. -/
theorem kldiv_grad_xgrad_optional (ctx : InferShapeContext)
    (hX : ctx.hasInput "X" = true)
    (hT : ctx.hasInput "Target" = true)
    (hG : ctx.hasInput (GradVarName "Loss") = true) :
    kldivLossGradInferShape ctx =
      Except.ok (if ctx.hasOutput (GradVarName "X") = true
                 then [(GradVarName "X", ctx.getInputDim "X")] else []) := by
  simp only [kldivLossGradInferShape, hX, hT, hG, Bool.not_true,
    Bool.false_eq_true, if_false]
  split <;> simp_all

/-- Witness for C9: a grad context with the X@GRAD slot present passes
the presence checks and gets X's shape assigned to X@GRAD. -/
theorem kldiv_grad_xgrad_optional_witness :
    kldivLossGradInferShape
        ⟨[("X", [4, 10]), ("Target", [4, 10]), ("Loss@GRAD", [1])],
         ["X@GRAD"], [], false⟩ =
      Except.ok (if InferShapeContext.hasOutput
          ⟨[("X", [4, 10]), ("Target", [4, 10]), ("Loss@GRAD", [1])],
           ["X@GRAD"], [], false⟩ (GradVarName "X") = true
        then [(GradVarName "X", InferShapeContext.getInputDim
          ⟨[("X", [4, 10]), ("Target", [4, 10]), ("Loss@GRAD", [1])],
           ["X@GRAD"], [], false⟩ "X")]
        else []) :=
  kldiv_grad_xgrad_optional _ (by decide) (by decide) (by decide)

/-- C10: the kernel key of `kldiv_loss_grad` takes its data type from the
Loss@GRAD input paired with the context's place, so two execution
contexts that agree on Loss@GRAD's data type and on the place — however
they differ on X's or Target's data type — select the same kernel key. -/
theorem kldiv_grad_kernel_key_from_loss_grad :
    (∀ (c : ExecutionContext) (dt : DataType),
        indicateVarDataType c (GradVarName "Loss") = some dt →
        kldivLossGradGetExpectedKernelType c = some ⟨dt, c.place⟩) ∧
    (∀ (c1 c2 : ExecutionContext),
        indicateVarDataType c1 (GradVarName "Loss") =
          indicateVarDataType c2 (GradVarName "Loss") →
        c1.place = c2.place →
        kldivLossGradGetExpectedKernelType c1 =
          kldivLossGradGetExpectedKernelType c2) := by
  constructor
  · intro c dt h
    simp [kldivLossGradGetExpectedKernelType, h]
  · intro c1 c2 h hp
    simp [kldivLossGradGetExpectedKernelType, h, hp]

/-- Witness for C10: two contexts differing only in X's data type but
agreeing on Loss@GRAD's data type and the place get the same kernel key. -/
theorem kldiv_grad_kernel_key_from_loss_grad_witness :
    kldivLossGradGetExpectedKernelType
        ⟨[("X", DataType.float32), ("Loss@GRAD", DataType.float64)],
         DeviceKind.CPU⟩ =
      kldivLossGradGetExpectedKernelType
        ⟨[("X", DataType.float64), ("Loss@GRAD", DataType.float64)],
         DeviceKind.CPU⟩ :=
  kldiv_grad_kernel_key_from_loss_grad.2 _ _ (by decide) (by decide)

/-- C6: the dispatch key of a `kldiv_loss` node is formed from the
operator type, the execution context's place and the data type of the
primary input X; the (CPU, float32) request finds the registered kernel,
while a (CPU, float16) request fails with NoKernelFound since only float
and double CPU kernels are registered, with no fallback. -/
theorem kldiv_dispatch_policy :
    (∀ (c : ExecutionContext) (dt : DataType),
        indicateVarDataType c "X" = some dt →
        dispatchKLDivLoss c = some (dispatch ⟨"kldiv_loss", c.place, dt⟩)) ∧
    dispatchKLDivLoss ⟨[("X", DataType.float32)], DeviceKind.CPU⟩ =
      some (Except.ok ⟨"kldiv_loss", DeviceKind.CPU, DataType.float32⟩) ∧
    dispatchKLDivLoss ⟨[("X", DataType.float16)], DeviceKind.CPU⟩ =
      some (Except.error DispatchError.noKernelFound) := by
  refine ⟨?_, by decide, by decide⟩
  intro c dt h
  simp [dispatchKLDivLoss, kldivLossGetExpectedKernelType, h]

/-- Witness for C6: the key-formation clause applied to the concrete
CPU/float32 context. -/
theorem kldiv_dispatch_policy_witness :
    dispatchKLDivLoss ⟨[("X", DataType.float32)], DeviceKind.CPU⟩ =
      some (dispatch ⟨"kldiv_loss", DeviceKind.CPU, DataType.float32⟩) :=
  kldiv_dispatch_policy.1 _ _ (by decide)
